import Mathlib

/-!
Shallow embedding of the code→protocol converter of
`client/src/codeConverter.ts` (the `createConverter` closure), as needed to
settle the claims about insertion-text precedence, change-params
polymorphism, kind re-numbering, diagnostic-tag filtering, sentinel
preservation and array ownership.

Modelling conventions, mirroring the JavaScript semantics of the source:

* A possibly-absent object property is an `Option`; JS object truthiness
  (`!!candidate.uri`, `if (item.textEdit)`) is `Option.isSome`, since any
  object — including one whose `toString()` is empty — is truthy.
* JS string truthiness (`if (item.detail)`, `text &&`) is "present and
  non-empty" (`strTruthy`): the empty string is falsy.
* JS number truthiness (`!!candidate.version`) is "present and non-zero"
  (`numTruthy`): `0` is falsy.
* The three-way `undefined / null / value` distinction of the overloaded
  converters is `JsOpt`.
* Array values whose reference identity matters to the claims (a command's
  `arguments`, a completion item's `commitCharacters`) carry an identity
  tag (`ArrayVal.ident`) modelling the JS heap reference: `slice()` yields
  a value with a fresh tag and the same elements, while plain assignment
  keeps the tag (aliasing). Arrays whose identity no claim mentions are
  plain lists.
* The untyped (`any`) argument of `asChangeTextDocumentParams` is a record
  with every possibly-read field optional (`ChangeArg`); `text` models the
  result of `getText()`.
* A thrown `Error` is `Except.error` with the thrown message.
-/

/-- Three-valued JS optional: `undefined`, `null`, or a value. Used where the
source declares separate overloads for `undefined` and `null`. -/
inductive JsOpt (α : Type) where
  | undef : JsOpt α
  | null : JsOpt α
  | val : α → JsOpt α
deriving Repr, DecidableEq

/-- JS string truthiness of a possibly-absent string: `undefined` and the
empty string are falsy. -/
def strTruthy : Option String → Bool
  | none => false
  | some s => s != ""

/-- JS number truthiness of a possibly-absent number: `undefined` and `0`
are falsy. -/
def numTruthy : Option Int → Bool
  | none => false
  | some v => v != 0

/-- A JS array value with its heap identity: `ident` models the reference,
`data` the elements. Two arrays alias exactly when their `ident`s agree. -/
structure ArrayVal (α : Type) where
  ident : Nat
  data : List α
deriving Repr, DecidableEq

/-- `Array.prototype.slice()`: a fresh array (new identity tag, modelled as
a tag distinct from the source array's) with the same elements. -/
def ArrayVal.slice (a : ArrayVal α) : ArrayVal α :=
  { ident := a.ident + 1, data := a.data }

/-- Host (`vscode`) `Uri` object; `str` models its `toString()`. The object
itself is always truthy regardless of `str`. -/
structure CodeUri where
  str : String
deriving Repr, DecidableEq

/-- The `nullConverter` of `createConverter`: default URI rendering via the
native string form. -/
def nullConverter (value : CodeUri) : String :=
  value.str

structure CodePosition where
  line : Nat
  character : Nat
deriving Repr, DecidableEq

structure CodeRange where
  start : CodePosition
  «end» : CodePosition
deriving Repr, DecidableEq

structure CodeLocation where
  uri : CodeUri
  range : CodeRange
deriving Repr, DecidableEq

structure ProtoPosition where
  line : Nat
  character : Nat
deriving Repr, DecidableEq

structure ProtoRange where
  start : ProtoPosition
  «end» : ProtoPosition
deriving Repr, DecidableEq

structure ProtoLocation where
  uri : String
  range : ProtoRange
deriving Repr, DecidableEq

/-- Core of `asPosition` on a definite value. -/
def asPositionV (value : CodePosition) : ProtoPosition :=
  { line := value.line, character := value.character }

/-- `asPosition`: passes the `undefined`/`null` sentinels through unchanged,
otherwise converts structurally. -/
def asPosition : JsOpt CodePosition → JsOpt ProtoPosition
  | JsOpt.undef => JsOpt.undef
  | JsOpt.null => JsOpt.null
  | JsOpt.val value => JsOpt.val (asPositionV value)

/-- Core of `asRange` on a definite value. -/
def asRangeV (value : CodeRange) : ProtoRange :=
  { start := asPositionV value.start, «end» := asPositionV value.«end» }

/-- `asRange`: passes the `undefined`/`null` sentinels through unchanged,
otherwise converts start and end. -/
def asRange : JsOpt CodeRange → JsOpt ProtoRange
  | JsOpt.undef => JsOpt.undef
  | JsOpt.null => JsOpt.null
  | JsOpt.val value => JsOpt.val (asRangeV value)

/-- Core of `asLocation` on a definite value (`proto.Location.create`). -/
def asLocationV (uriConv : CodeUri → String) (value : CodeLocation) : ProtoLocation :=
  { uri := uriConv value.uri, range := asRangeV value.range }

/-- `asLocation`: passes the `undefined`/`null` sentinels through unchanged,
otherwise converts via the injected URI strategy. -/
def asLocation (uriConv : CodeUri → String) : JsOpt CodeLocation → JsOpt ProtoLocation
  | JsOpt.undef => JsOpt.undef
  | JsOpt.null => JsOpt.null
  | JsOpt.val value => JsOpt.val (asLocationV uriConv value)

/-- Host enum `code.DiagnosticTag.Unnecessary` (= 1). -/
def codeDiagnosticTagUnnecessary : Nat := 1

/-- Host enum `code.DiagnosticTag.Deprecated` (= 2). -/
def codeDiagnosticTagDeprecated : Nat := 2

/-- Wire constant `proto.DiagnosticTag.Unnecessary` (= 1). -/
def protoDiagnosticTagUnnecessary : Nat := 1

/-- Wire constant `proto.DiagnosticTag.Deprecated` (= 2). -/
def protoDiagnosticTagDeprecated : Nat := 2

/-- `asDiagnosticTag`: allow-list switch; any tag other than Unnecessary and
Deprecated falls to the `default` branch, which yields `undefined`. -/
def asDiagnosticTag (tag : Nat) : Option Nat :=
  if tag = codeDiagnosticTagUnnecessary then some protoDiagnosticTagUnnecessary
  else if tag = codeDiagnosticTagDeprecated then some protoDiagnosticTagDeprecated
  else none

/-- `asDiagnosticTags`: `undefined`/`null` input yields `undefined`; else the
loop pushes each convertible tag in order (a `filterMap`), and the result is
returned only when non-empty, `undefined` otherwise. -/
def asDiagnosticTags : Option (List Nat) → Option (List Nat)
  | none => none
  | some tags =>
    let result := tags.filterMap asDiagnosticTag
    if result.length > 0 then some result else none

/-- `asDiagnosticSeverity`: four-case switch on the host's 0-based severity
enum to the wire's 1-based one; the switch has no default, so any other
value falls off the end (`undefined`). -/
def asDiagnosticSeverity (value : Nat) : Option Nat :=
  if value = 0 then some 1
  else if value = 1 then some 2
  else if value = 2 then some 3
  else if value = 3 then some 4
  else none

structure CodeDiagnosticRelatedInformation where
  location : CodeLocation
  message : String
deriving Repr, DecidableEq

structure ProtoDiagnosticRelatedInformation where
  message : String
  location : ProtoLocation
deriving Repr, DecidableEq

/-- `asRelatedInformation` (the location is definite in a host diagnostic). -/
def asRelatedInformation (uriConv : CodeUri → String)
    (item : CodeDiagnosticRelatedInformation) : ProtoDiagnosticRelatedInformation :=
  { message := item.message, location := asLocationV uriConv item.location }

/-- Host `code.Diagnostic`. `severity` is `some` exactly when `Is.number`
holds of the property, `code` when `Is.number \x7c\x7c Is.string` holds,
`tags` when `Array.isArray` holds, `relatedInformation` when the property is
set (arrays are truthy even when empty). -/
structure CodeDiagnostic where
  range : CodeRange
  message : String
  severity : Option Nat := none
  code : Option (Sum Nat String) := none
  tags : Option (List Nat) := none
  relatedInformation : Option (List CodeDiagnosticRelatedInformation) := none
  source : Option String := none
deriving Repr, DecidableEq

/-- Wire `proto.Diagnostic`; every field beyond range and message is
optional and absent unless the corresponding guard in `asDiagnostic` set it. -/
structure ProtoDiagnostic where
  range : ProtoRange
  message : String
  severity : Option Nat := none
  code : Option (Sum Nat String) := none
  tags : Option (List Nat) := none
  relatedInformation : Option (List ProtoDiagnosticRelatedInformation) := none
  source : Option String := none
deriving Repr, DecidableEq

/-- `asDiagnostic`: starts from `proto.Diagnostic.create(range, message)` and
conditionally assigns each optional field, mirroring the source's guards
(`Is.number(item.severity)`, `Is.number(item.code) \x7c\x7c Is.string(item.code)`,
`Array.isArray(item.tags)`, truthiness of `relatedInformation` and `source`). -/
def asDiagnostic (uriConv : CodeUri → String) (item : CodeDiagnostic) : ProtoDiagnostic :=
  { range := asRangeV item.range
    message := item.message
    severity := match item.severity with
      | some s => asDiagnosticSeverity s
      | none => none
    code := item.code
    tags := match item.tags with
      | some tags => asDiagnosticTags (some tags)
      | none => none
    relatedInformation := match item.relatedInformation with
      | some items => some (items.map (asRelatedInformation uriConv))
      | none => none
    source := if strTruthy item.source then item.source else none }

/-- Wire constant `proto.InsertTextFormat.PlainText` (= 1). -/
def InsertTextFormat.PlainText : Nat := 1

/-- Wire constant `proto.InsertTextFormat.Snippet` (= 2). -/
def InsertTextFormat.Snippet : Nat := 2

/-- Host `code.SnippetString`, carrying its literal text. -/
structure SnippetString where
  value : String
deriving Repr, DecidableEq

structure CodeTextEdit where
  range : CodeRange
  newText : String
deriving Repr, DecidableEq

structure ProtoTextEdit where
  range : ProtoRange
  newText : String
deriving Repr, DecidableEq

/-- `asTextEdit`. -/
def asTextEdit (edit : CodeTextEdit) : ProtoTextEdit :=
  { range := asRangeV edit.range, newText := edit.newText }

/-- `asTextEdits` on a definite array (the guard in `asCompletionItem`
ensures the argument is an array). -/
def asTextEdits (edits : List CodeTextEdit) : List ProtoTextEdit :=
  edits.map asTextEdit

/-- Host `code.Command`; `arguments` is an identity-tagged array because the
claims speak about its ownership. -/
structure CodeCommand where
  title : String
  command : String
  arguments : Option (ArrayVal Nat) := none
deriving Repr, DecidableEq

/-- Wire `proto.Command`. -/
structure ProtoCommand where
  title : String
  command : String
  arguments : Option (ArrayVal Nat) := none
deriving Repr, DecidableEq

/-- `asCommand`: `proto.Command.create(title, command)`, then
`result.arguments = item.arguments` when the property is truthy — the host
array itself is assigned (same identity tag), not a copy. -/
def asCommand (item : CodeCommand) : ProtoCommand :=
  { title := item.title
    command := item.command
    arguments := match item.arguments with
      | some args => some args
      | none => none }

/-- Extra fields of the `ProtocolCompletionItem` subclass; an item carries
them exactly when it was constructed by the protocol→code converter from a
prior wire response. `documentationFormat` is not modelled (the
documentation channel is outside the claims). -/
structure ProtocolCompletionItemData where
  data : Option Nat := none
  fromEdit : Bool := false
  originalItemKind : Option Nat := none
  deprecated : Option Bool := none
deriving Repr, DecidableEq

/-- Host `code.CompletionItem`. `protocol` is `some` exactly when the item
is an `instanceof ProtocolCompletionItem`; `insertText` is either a plain
string (`Sum.inl`) or a `SnippetString` (`Sum.inr`); `commitCharacters` is
identity-tagged because the claims speak about its ownership. The
`documentation` property is not modelled (no claim touches it). -/
structure CodeCompletionItem where
  label : String
  detail : Option String := none
  filterText : Option String := none
  insertText : Option (Sum String SnippetString) := none
  textEdit : Option CodeTextEdit := none
  range : Option CodeRange := none
  kind : Option Nat := none
  sortText : Option String := none
  additionalTextEdits : Option (List CodeTextEdit) := none
  commitCharacters : Option (ArrayVal String) := none
  command : Option CodeCommand := none
  preselect : Option Bool := none
  protocol : Option ProtocolCompletionItemData := none
deriving Repr, DecidableEq

/-- Reading `source.fromEdit` through the `as ProtocolCompletionItem` cast:
on a plain completion item the property is absent, hence falsy. -/
def CodeCompletionItem.fromEdit (item : CodeCompletionItem) : Bool :=
  match item.protocol with
  | some p => p.fromEdit
  | none => false

/-- Wire `proto.CompletionItem`; every field beyond the label is absent
unless `asCompletionItem`/`fillPrimaryInsertText` set it. The documentation
field is not modelled. -/
structure ProtoCompletionItem where
  label : String
  detail : Option String := none
  filterText : Option String := none
  insertText : Option String := none
  insertTextFormat : Option Nat := none
  textEdit : Option ProtoTextEdit := none
  kind : Option Nat := none
  sortText : Option String := none
  additionalTextEdits : Option (List ProtoTextEdit) := none
  commitCharacters : Option (ArrayVal String) := none
  command : Option ProtoCommand := none
  preselect : Option Bool := none
  data : Option Nat := none
  deprecated : Option Bool := none
deriving Repr, DecidableEq

/-- `asCompletionItemKind`: a recorded original wire kind is preserved
verbatim; otherwise the host's 0-based kind is shifted by one. -/
def asCompletionItemKind (value : Nat) (original : Option Nat) : Nat :=
  match original with
  | some o => o
  | none => value + 1

/-- `fillPrimaryInsertText`: chooses format, text and range with the
source's precedence (text-edit override, then snippet payload, then the
plain insertion string — there is no further fallback), lets a separate
`source.range` override the range, then emits either a structured
`textEdit` (when `source.fromEdit && text && range`, with JS string
truthiness on `text`) or a bare `insertText`. The catch-all arm of the
final match is reachable exactly when the JS condition is false. -/
def fillPrimaryInsertText (target : ProtoCompletionItem) (source : CodeCompletionItem) :
    ProtoCompletionItem :=
  let first : Nat × Option String × Option ProtoRange :=
    match source.textEdit, source.insertText with
    | some textEdit, _ =>
        (InsertTextFormat.PlainText, some textEdit.newText, some (asRangeV textEdit.range))
    | none, some (Sum.inr snippet) => (InsertTextFormat.Snippet, some snippet.value, none)
    | none, some (Sum.inl plain) => (InsertTextFormat.PlainText, some plain, none)
    | none, none => (InsertTextFormat.PlainText, none, none)
  let format := first.1
  let text := first.2.1
  let rangeBefore := first.2.2
  let range : Option ProtoRange :=
    match source.range with
    | some r => some (asRangeV r)
    | none => rangeBefore
  match source.fromEdit && strTruthy text && range.isSome, text, range with
  | true, some t, some r =>
      { target with insertTextFormat := some format, textEdit := some { newText := t, range := r } }
  | _, _, _ =>
      { target with insertTextFormat := some format, insertText := text }

/-- `asCompletionItem`: builds the wire item with each conditional property
assignment of the source rendered as a conditional field (a skipped
assignment leaves the field at its absent default), and threads the
partially-built result through `fillPrimaryInsertText` exactly as the
source does. `preselect` is copied when it is `=== true \x7c\x7c === false`,
i.e. present; `data` and `deprecated` only off a `ProtocolCompletionItem`. -/
def asCompletionItem (item : CodeCompletionItem) : ProtoCompletionItem :=
  let base : ProtoCompletionItem :=
    { label := item.label
      detail := if strTruthy item.detail then item.detail else none
      filterText := if strTruthy item.filterText then item.filterText else none }
  let filled := fillPrimaryInsertText base item
  { filled with
    kind := match item.kind with
      | some k => some (asCompletionItemKind k (item.protocol.bind fun p => p.originalItemKind))
      | none => none
    sortText := if strTruthy item.sortText then item.sortText else none
    additionalTextEdits := match item.additionalTextEdits with
      | some edits => some (asTextEdits edits)
      | none => none
    commitCharacters := match item.commitCharacters with
      | some chars => some chars.slice
      | none => none
    command := match item.command with
      | some c => some (asCommand c)
      | none => none
    preselect := item.preselect
    data := item.protocol.bind fun p => p.data
    deprecated := item.protocol.bind fun p => p.deprecated }

/-- Host `code.TextDocument` as read by the change-params builder: `text`
models `getText()`. -/
structure CodeTextDocument where
  uri : CodeUri
  version : Int
  languageId : String := ""
  text : String := ""
deriving Repr, DecidableEq

/-- One entry of a host `TextDocumentChangeEvent.contentChanges`. -/
structure CodeContentChange where
  range : CodeRange
  rangeLength : Nat
  text : String
deriving Repr, DecidableEq

/-- The untyped argument of `asChangeTextDocumentParams`: every property the
function may read is optional; `text` models `getText()` on document-shaped
values. -/
structure ChangeArg where
  uri : Option CodeUri := none
  version : Option Int := none
  text : String := ""
  document : Option CodeTextDocument := none
  contentChanges : Option (List CodeContentChange) := none
deriving Repr, DecidableEq

/-- `isTextDocument`: truthiness of `uri` (an object — present means truthy)
and of `version` (a number — `0` is falsy). -/
def isTextDocument (arg : ChangeArg) : Bool :=
  arg.uri.isSome && numTruthy arg.version

/-- `isTextDocumentChangeEvent`: truthiness of `document` and of
`contentChanges` (an array is truthy even when empty). -/
def isTextDocumentChangeEvent (arg : ChangeArg) : Bool :=
  arg.document.isSome && arg.contentChanges.isSome

/-- Wire `VersionedTextDocumentIdentifier`. -/
structure ProtoVersionedTextDocumentIdentifier where
  uri : String
  version : Int
deriving Repr, DecidableEq

/-- Wire `TextDocumentContentChangeEvent`: the full-document form has no
range and no rangeLength. -/
structure ProtoContentChange where
  range : Option ProtoRange := none
  rangeLength : Option Nat := none
  text : String
deriving Repr, DecidableEq

/-- Wire `DidChangeTextDocumentParams`. -/
structure DidChangeTextDocumentParams where
  textDocument : ProtoVersionedTextDocumentIdentifier
  contentChanges : List ProtoContentChange
deriving Repr, DecidableEq

/-- `asChangeTextDocumentParams`: discriminates the untyped argument with
`isTextDocument` then `isTextDocumentChangeEvent`, emitting a single
synthetic full-text change or the element-wise converted edit list, and
throws for any other shape. The inner match fallbacks are unreachable
(each guard implies its fields are present) and return the same error. -/
def asChangeTextDocumentParams (uriConv : CodeUri → String) (arg : ChangeArg) :
    Except String DidChangeTextDocumentParams :=
  if isTextDocument arg then
    match arg.uri, arg.version with
    | some uri, some version =>
        Except.ok
          { textDocument := { uri := uriConv uri, version := version }
            contentChanges := [{ text := arg.text }] }
    | _, _ => Except.error "Unsupported text document change parameter"
  else if isTextDocumentChangeEvent arg then
    match arg.document, arg.contentChanges with
    | some document, some changes =>
        Except.ok
          { textDocument := { uri := uriConv document.uri, version := document.version }
            contentChanges := changes.map fun change =>
              { range := some
                  { start := { line := change.range.start.line
                               character := change.range.start.character }
                    «end» := { line := change.range.«end».line
                               character := change.range.«end».character } }
                rangeLength := some change.rangeLength
                text := change.text } }
    | _, _ => Except.error "Unsupported text document change parameter"
  else
    Except.error "Unsupported text document change parameter"

/-- Modelled from the spec: the insertion text chosen by the precedence
ladder of §4.3 steps 1–3 — text-edit override's newText, else snippet
literal, else the plain insertion string — without the label fallback the
spec claims for the absent case (the source has none). -/
def chosenInsertText (item : CodeCompletionItem) : Option String :=
  match item.textEdit with
  | some textEdit => some textEdit.newText
  | none =>
    match item.insertText with
    | some (Sum.inr snippet) => some snippet.value
    | some (Sum.inl plain) => some plain
    | none => none

/-- Modelled from the spec: the range after step 4 of §4.3 — a separate
target range on the item overrides whatever range the precedence steps
chose (only step 1 chooses one). -/
def chosenRange (item : CodeCompletionItem) : Option ProtoRange :=
  match item.range with
  | some r => some (asRangeV r)
  | none =>
    match item.textEdit with
    | some textEdit => some (asRangeV textEdit.range)
    | none => none

/-- Modelled from the spec (amended): the final emission rule of §4.3 — a
structured text edit exactly when the item is flagged as wire-edit
originated and both a non-empty text and a range are present (the source
tests JS truthiness of the text, so an empty chosen text is emitted as a
bare insertion string even under the flag). -/
def specTextEditEmission (item : CodeCompletionItem) : Option ProtoTextEdit :=
  match item.fromEdit, chosenInsertText item, chosenRange item with
  | true, some t, some r => if t = "" then none else some { range := r, newText := t }
  | _, _, _ => none

/-- The insertable text a wire completion item actually carries: the
structured edit's newText when one was emitted, the bare insertText
otherwise. -/
def emittedInsertText (item : ProtoCompletionItem) : Option String :=
  match item.textEdit with
  | some textEdit => some textEdit.newText
  | none => item.insertText

/-- Projection of a change-params result onto its contentChanges, `none`
when the call threw. -/
def paramsContentChanges :
    Except String DidChangeTextDocumentParams → Option (List ProtoContentChange)
  | Except.ok p => some p.contentChanges
  | Except.error _ => none

/-- C7: the converters `asPosition`, `asRange` and `asLocation` return the
very sentinel they were given — `undefined` maps to `undefined` and `null`
to `null` — never a constructed default. -/
theorem converters_preserve_absence_sentinels (uriConv : CodeUri → String) :
    asPosition JsOpt.undef = JsOpt.undef ∧ asPosition JsOpt.null = JsOpt.null
    ∧ asRange JsOpt.undef = JsOpt.undef ∧ asRange JsOpt.null = JsOpt.null
    ∧ asLocation uriConv JsOpt.undef = JsOpt.undef
    ∧ asLocation uriConv JsOpt.null = JsOpt.null :=
  ⟨rfl, rfl, rfl, rfl, rfl, rfl⟩

/-- C6: `asChangeTextDocumentParams` throws exactly when its argument
matches neither accepted input shape — neither the text-document shape
(`isTextDocument`: truthy `uri` and `version`) nor the change-event shape
(`isTextDocumentChangeEvent`: truthy `document` and `contentChanges`) — and
there is no other non-ok outcome. -/
theorem asChangeTextDocumentParams_throws_iff (uriConv : CodeUri → String) (arg : ChangeArg) :
    asChangeTextDocumentParams uriConv arg
        = Except.error "Unsupported text document change parameter"
      ↔ isTextDocument arg = false ∧ isTextDocumentChangeEvent arg = false := by
  rcases hu : arg.uri with _ | u <;> rcases hv : arg.version with _ | v <;>
    rcases hd : arg.document with _ | d <;> rcases hc : arg.contentChanges with _ | c <;>
    simp [asChangeTextDocumentParams, isTextDocument, isTextDocumentChangeEvent,
      numTruthy, hu, hv, hd, hc]
  all_goals (by_cases hv0 : v = 0 <;> simp [hv0])

/-- C3: on a text-document-shaped argument the emitted `contentChanges` is
exactly one synthetic element carrying the full text and neither a range
nor a rangeLength; on a change-event-shaped argument it is the element-wise
conversion of the event's edit list (`List.map`, hence one output element
per edit, in the original order, each with its own range, rangeLength and
text). -/
theorem asChangeTextDocumentParams_contentChanges_shapes (uriConv : CodeUri → String)
    (arg : ChangeArg) :
    (isTextDocument arg = true →
      paramsContentChanges (asChangeTextDocumentParams uriConv arg)
        = some [{ range := none, rangeLength := none, text := arg.text }])
    ∧ (∀ document changes, isTextDocument arg = false → arg.document = some document →
        arg.contentChanges = some changes →
        paramsContentChanges (asChangeTextDocumentParams uriConv arg)
          = some (changes.map fun change =>
              { range := some
                  { start := { line := change.range.start.line
                               character := change.range.start.character }
                    «end» := { line := change.range.«end».line
                               character := change.range.«end».character } }
                rangeLength := some change.rangeLength
                text := change.text })) := by
  constructor
  · intro h
    rcases hu : arg.uri with _ | u <;> rcases hv : arg.version with _ | v <;>
      simp [isTextDocument, numTruthy, hu, hv] at h
    all_goals simp [asChangeTextDocumentParams, isTextDocument, numTruthy, hu, hv, h,
      paramsContentChanges]
  · intro document changes h hd hc
    simp [asChangeTextDocumentParams, isTextDocumentChangeEvent, h, hd, hc,
      paramsContentChanges]

/-- Witness for C3: a full-document input with text "abc" yields the single
element with no range, and a two-edit incremental event yields two elements
in order with their own fields. -/
theorem asChangeTextDocumentParams_contentChanges_shapes_witness :
    paramsContentChanges (asChangeTextDocumentParams nullConverter
        { uri := some { str := "file:a" }, version := some 1, text := "abc" })
      = some [{ range := none, rangeLength := none, text := "abc" }]
    ∧ paramsContentChanges (asChangeTextDocumentParams nullConverter
        { document := some { uri := { str := "file:b" }, version := 2 }
          contentChanges := some
            [ { range := { start := { line := 0, character := 0 }
                           «end» := { line := 0, character := 1 } }
                rangeLength := 1, text := "x" }
            , { range := { start := { line := 2, character := 3 }
                           «end» := { line := 2, character := 5 } }
                rangeLength := 2, text := "yz" } ] })
      = some
        [ { range := some { start := { line := 0, character := 0 }
                            «end» := { line := 0, character := 1 } }
            rangeLength := some 1, text := "x" }
        , { range := some { start := { line := 2, character := 3 }
                            «end» := { line := 2, character := 5 } }
            rangeLength := some 2, text := "yz" } ] :=
  by
  constructor
  · exact (asChangeTextDocumentParams_contentChanges_shapes nullConverter
      { uri := some { str := "file:a" }, version := some 1, text := "abc" }).1 rfl
  · exact (asChangeTextDocumentParams_contentChanges_shapes nullConverter
      { document := some { uri := { str := "file:b" }, version := 2 }
        contentChanges := some
          [ { range := { start := { line := 0, character := 0 }
                         «end» := { line := 0, character := 1 } }
              rangeLength := 1, text := "x" }
          , { range := { start := { line := 2, character := 3 }
                         «end» := { line := 2, character := 5 } }
              rangeLength := 2, text := "yz" } ] }).2
      { uri := { str := "file:b" }, version := 2 }
      [ { range := { start := { line := 0, character := 0 }
                     «end» := { line := 0, character := 1 } }
          rangeLength := 1, text := "x" }
      , { range := { start := { line := 2, character := 3 }
                     «end» := { line := 2, character := 5 } }
          rangeLength := 2, text := "yz" } ] rfl rfl rfl

/-- C9 (amended): the truthiness-based discrimination means a genuine text
document whose version is 0 is not recognized as a whole-document snapshot
and — lacking a `contentChanges` property — the call throws. (The uri test
is object truthiness, so the uri's string form is irrelevant; see the
counterexample.) -/
theorem asChangeTextDocumentParams_version_zero_throws (uriConv : CodeUri → String)
    (arg : ChangeArg) (_hu : arg.uri.isSome = true) (hv : arg.version = some 0)
    (hc : arg.contentChanges = none) :
    asChangeTextDocumentParams uriConv arg
      = Except.error "Unsupported text document change parameter" := by
  simp [asChangeTextDocumentParams, isTextDocument, isTextDocumentChangeEvent,
    numTruthy, hv, hc]

/-- Witness for C9: a document with uri "file:a", version 0 and no
contentChanges throws. -/
theorem asChangeTextDocumentParams_version_zero_throws_witness :
    asChangeTextDocumentParams nullConverter
        { uri := some { str := "file:a" }, version := some 0, text := "abc" }
      = Except.error "Unsupported text document change parameter" :=
  asChangeTextDocumentParams_version_zero_throws nullConverter _ rfl rfl rfl

/-- Counterexample for C9's uri clause: a document whose uri stringifies to
the empty (falsy) string is still recognized — `!!candidate.uri` tests the
Uri object, which is truthy — so the call emits the full-text change
instead of throwing. -/
theorem asChangeTextDocumentParams_falsy_uri_string_cex :
    asChangeTextDocumentParams nullConverter
        { uri := some { str := "" }, version := some 1, text := "abc" }
      = Except.ok { textDocument := { uri := "", version := 1 }
                    contentChanges := [{ text := "abc" }] } := by
  rfl

/-- The insert-text format chosen by `fillPrimaryInsertText`: snippet
exactly when there is no text-edit override and the insertion payload is a
`SnippetString`. -/
def chosenFormat (source : CodeCompletionItem) : Nat :=
  match source.textEdit, source.insertText with
  | none, some (Sum.inr _) => InsertTextFormat.Snippet
  | _, _ => InsertTextFormat.PlainText

theorem fillPrimaryInsertText_textEdit (target : ProtoCompletionItem)
    (source : CodeCompletionItem) (h : target.textEdit = none) :
    (fillPrimaryInsertText target source).textEdit = specTextEditEmission source := by
  unfold fillPrimaryInsertText specTextEditEmission chosenInsertText chosenRange
  cases hfe : source.fromEdit <;>
    rcases hte : source.textEdit with _ | te <;>
    rcases hit : source.insertText with _ | (pl | sn) <;>
    rcases hr : source.range with _ | r <;>
    simp_all [strTruthy] <;>
    split <;>
    simp_all

theorem fillPrimaryInsertText_insertText (target : ProtoCompletionItem)
    (source : CodeCompletionItem) (h : target.insertText = none) :
    (fillPrimaryInsertText target source).insertText
      = (if (specTextEditEmission source).isSome then none else chosenInsertText source) := by
  unfold fillPrimaryInsertText specTextEditEmission chosenInsertText chosenRange
  cases hfe : source.fromEdit <;>
    rcases hte : source.textEdit with _ | te <;>
    rcases hit : source.insertText with _ | (pl | sn) <;>
    rcases hr : source.range with _ | r <;>
    simp_all [strTruthy] <;>
    split <;>
    simp_all

theorem fillPrimaryInsertText_insertTextFormat (target : ProtoCompletionItem)
    (source : CodeCompletionItem) :
    (fillPrimaryInsertText target source).insertTextFormat = some (chosenFormat source) := by
  unfold fillPrimaryInsertText chosenFormat
  cases hfe : source.fromEdit <;>
    rcases hte : source.textEdit with _ | te <;>
    rcases hit : source.insertText with _ | (pl | sn) <;>
    rcases hr : source.range with _ | r <;>
    simp_all [strTruthy] <;>
    split <;>
    simp_all

theorem specTextEditEmission_eq_some (item : CodeCompletionItem) (e : ProtoTextEdit)
    (h : specTextEditEmission item = some e) :
    chosenInsertText item = some e.newText ∧ chosenRange item = some e.range
    ∧ item.fromEdit = true ∧ e.newText ≠ "" := by
  unfold specTextEditEmission at h
  cases hfe : item.fromEdit <;>
    rcases hct : chosenInsertText item with _ | t <;>
    rcases hcr : chosenRange item with _ | r <;>
    simp_all
  all_goals (rcases h with ⟨h1, h2⟩; subst h2; simp_all)

/-- Counterexample for C1's label-fallback clause: a completion item with
label "fooItem" and no insertion mechanism at all is emitted with neither
an `insertText` nor a `textEdit` — the label is not used as insertion text,
so the wire item has no insertable text. -/
theorem asCompletionItem_no_label_fallback_cex :
    (asCompletionItem { label := "fooItem" }).insertText = none
    ∧ (asCompletionItem { label := "fooItem" }).textEdit = none :=
  ⟨rfl, rfl⟩

/-- C1 (amended): the insertable text carried by the converted item follows
the strict precedence text-edit override, then snippet literal, then the
plain insertion string; when the plain string is also absent the emitted
item carries no insertion text — there is no fallback to the display
label. -/
theorem asCompletionItem_primary_text_precedence (item : CodeCompletionItem) :
    emittedInsertText (asCompletionItem item) = chosenInsertText item := by
  have h1 : (asCompletionItem item).textEdit = specTextEditEmission item :=
    fillPrimaryInsertText_textEdit _ item rfl
  have h2 : (asCompletionItem item).insertText
      = (if (specTextEditEmission item).isSome then none else chosenInsertText item) :=
    fillPrimaryInsertText_insertText _ item rfl
  unfold emittedInsertText
  rw [h1, h2]
  rcases hse : specTextEditEmission item with _ | e
  · simp
  · simp [(specTextEditEmission_eq_some item e hse).1]

/-- Counterexample for C2: an item flagged as wire-edit-originated whose
chosen text is the (present but JS-falsy) empty string and whose range is
present is emitted as a bare `insertText`, not as a structured `textEdit` —
the source gates on truthiness of the text, not on its presence. -/
theorem fillPrimaryInsertText_empty_text_cex :
    (asCompletionItem { label := "x", insertText := some (Sum.inl "")
                        range := some { start := { line := 0, character := 0 }
                                        «end» := { line := 0, character := 1 } }
                        protocol := some { fromEdit := true } }).textEdit = none
    ∧ (asCompletionItem { label := "x", insertText := some (Sum.inl "")
                          range := some { start := { line := 0, character := 0 }
                                          «end» := { line := 0, character := 1 } }
                          protocol := some { fromEdit := true } }).insertText = some "" :=
  ⟨rfl, rfl⟩

/-- C2 (amended): a separate target range overrides the range chosen by the
precedence steps (`chosenRange`), and the converted item carries a
structured `textEdit` (and no bare `insertText`) exactly when it is flagged
`fromEdit` and both a non-empty chosen text and a range are present
(`specTextEditEmission`); otherwise the chosen text is emitted as a bare
`insertText`. -/
theorem asCompletionItem_textEdit_emission (item : CodeCompletionItem) :
    (asCompletionItem item).textEdit = specTextEditEmission item
    ∧ (asCompletionItem item).insertText
        = (if (specTextEditEmission item).isSome then none else chosenInsertText item) :=
  ⟨fillPrimaryInsertText_textEdit _ item rfl, fillPrimaryInsertText_insertText _ item rfl⟩

/-- C4: when the item's kind is a number, the wire kind is the recorded
original 1-based wire kind when one is present (the item was built from a
prior wire response), and the host's 0-based kind shifted by one
otherwise. -/
theorem asCompletionItem_kind_renumbering (item : CodeCompletionItem) (k : Nat)
    (hk : item.kind = some k) :
    (∀ original, (item.protocol.bind fun p => p.originalItemKind) = some original →
      (asCompletionItem item).kind = some original)
    ∧ ((item.protocol.bind fun p => p.originalItemKind) = none →
      (asCompletionItem item).kind = some (k + 1)) := by
  have hkind : (asCompletionItem item).kind
      = (match item.kind with
         | some k => some (asCompletionItemKind k (item.protocol.bind fun p => p.originalItemKind))
         | none => none) := rfl
  constructor
  · intro original ho
    rw [hkind, hk, ho]
    simp [asCompletionItemKind]
  · intro ho
    rw [hkind, hk, ho]
    simp [asCompletionItemKind]

/-- Witness for C4: kind 3 with no recorded original becomes 4; kind 3 with
recorded original wire kind 7 stays 7. -/
theorem asCompletionItem_kind_renumbering_witness :
    (asCompletionItem { label := "a", kind := some 3 }).kind = some 4
    ∧ (asCompletionItem
        { label := "b", kind := some 3,
          protocol := some { originalItemKind := some 7 } }).kind = some 7 :=
  ⟨(asCompletionItem_kind_renumbering { label := "a", kind := some 3 } 3 rfl).2 rfl,
   (asCompletionItem_kind_renumbering
      { label := "b", kind := some 3,
        protocol := some { originalItemKind := some 7 } } 3 rfl).1 7 rfl⟩

/-- Counterexample for C8: a snippet-payload item with no text-edit
override, but flagged `fromEdit` with a range present, is emitted as a
structured `textEdit` carrying the snippet text — not as a bare
`insertText` as the claim predicates only on the absence of an override. -/
theorem asCompletionItem_snippet_fromEdit_cex :
    (asCompletionItem { label := "s", insertText := some (Sum.inr { value := "foo($1)" })
                        range := some { start := { line := 1, character := 2 }
                                        «end» := { line := 1, character := 4 } }
                        protocol := some { fromEdit := true } }).insertText = none
    ∧ (asCompletionItem { label := "s", insertText := some (Sum.inr { value := "foo($1)" })
                          range := some { start := { line := 1, character := 2 }
                                          «end» := { line := 1, character := 4 } }
                          protocol := some { fromEdit := true } }).textEdit
        = some { range := { start := { line := 1, character := 2 }
                            «end» := { line := 1, character := 4 } }
                 newText := "foo($1)" } :=
  ⟨rfl, rfl⟩

/-- C8 (amended): for an item without a text-edit override that is not
flagged as wire-edit-originated, a snippet payload yields
`insertText` equal to the snippet's literal text with format Snippet, and a
plain string payload yields that string as `insertText`, no `textEdit`, and
format PlainText. -/
theorem asCompletionItem_insert_payload_formats (item : CodeCompletionItem)
    (hfe : item.fromEdit = false) (hte : item.textEdit = none) :
    (∀ snippet, item.insertText = some (Sum.inr snippet) →
      (asCompletionItem item).insertText = some snippet.value
      ∧ (asCompletionItem item).insertTextFormat = some InsertTextFormat.Snippet
      ∧ (asCompletionItem item).textEdit = none)
    ∧ (∀ plain, item.insertText = some (Sum.inl plain) →
      (asCompletionItem item).insertText = some plain
      ∧ (asCompletionItem item).insertTextFormat = some InsertTextFormat.PlainText
      ∧ (asCompletionItem item).textEdit = none) := by
  have h1 : (asCompletionItem item).textEdit = specTextEditEmission item :=
    fillPrimaryInsertText_textEdit _ item rfl
  have h2 : (asCompletionItem item).insertText
      = (if (specTextEditEmission item).isSome then none else chosenInsertText item) :=
    fillPrimaryInsertText_insertText _ item rfl
  have h3 : (asCompletionItem item).insertTextFormat = some (chosenFormat item) :=
    fillPrimaryInsertText_insertTextFormat _ item
  have hse : specTextEditEmission item = none := by
    unfold specTextEditEmission
    rw [hfe]
  constructor
  · intro snippet hit
    refine ⟨?_, ?_, ?_⟩
    · rw [h2, hse]
      simp [chosenInsertText, hte, hit]
    · rw [h3]
      simp [chosenFormat, hte, hit]
    · rw [h1, hse]
  · intro plain hit
    refine ⟨?_, ?_, ?_⟩
    · rw [h2, hse]
      simp [chosenInsertText, hte, hit]
    · rw [h3]
      simp [chosenFormat, hte, hit]
    · rw [h1, hse]

/-- Witness for C8: a plain snippet-payload item is emitted as
`insertText = "foo($1)"` with format Snippet (= 2), and a plain-string item
with label "fooItem" as `insertText = "foo"`, no `textEdit`, format
PlainText (= 1). -/
theorem asCompletionItem_insert_payload_formats_witness :
    ((asCompletionItem
        { label := "s",
          insertText := some (Sum.inr { value := "foo($1)" }) }).insertText = some "foo($1)"
      ∧ (asCompletionItem
          { label := "s",
            insertText := some (Sum.inr { value := "foo($1)" }) }).insertTextFormat = some 2
      ∧ (asCompletionItem
          { label := "s",
            insertText := some (Sum.inr { value := "foo($1)" }) }).textEdit = none)
    ∧ ((asCompletionItem
        { label := "fooItem",
          insertText := some (Sum.inl "foo") }).insertText = some "foo"
      ∧ (asCompletionItem
          { label := "fooItem",
            insertText := some (Sum.inl "foo") }).insertTextFormat = some 1
      ∧ (asCompletionItem
          { label := "fooItem",
            insertText := some (Sum.inl "foo") }).textEdit = none) :=
  ⟨(asCompletionItem_insert_payload_formats
      { label := "s",
        insertText := some (Sum.inr { value := "foo($1)" }) } rfl rfl).1
      { value := "foo($1)" } rfl,
   (asCompletionItem_insert_payload_formats
      { label := "fooItem",
        insertText := some (Sum.inl "foo") } rfl rfl).2 "foo" rfl⟩

/-- C5: a present tags list is filtered through the allow-list
(`Unnecessary` and `Deprecated` map to their wire values, every other tag
is dropped without error), and when the filtered list is empty the wire
diagnostic's tags field is omitted entirely. -/
theorem asDiagnostic_tags_allowlist (uriConv : CodeUri → String) (item : CodeDiagnostic)
    (tags : List Nat) (h : item.tags = some tags) :
    (asDiagnostic uriConv item).tags
        = (if (tags.filterMap asDiagnosticTag).length > 0
           then some (tags.filterMap asDiagnosticTag) else none)
    ∧ (tags.filterMap asDiagnosticTag = [] → (asDiagnostic uriConv item).tags = none)
    ∧ asDiagnosticTag codeDiagnosticTagUnnecessary = some protoDiagnosticTagUnnecessary
    ∧ asDiagnosticTag codeDiagnosticTagDeprecated = some protoDiagnosticTagDeprecated
    ∧ (∀ t, t ≠ codeDiagnosticTagUnnecessary → t ≠ codeDiagnosticTagDeprecated →
        asDiagnosticTag t = none) := by
  have htags : (asDiagnostic uriConv item).tags
      = (match item.tags with
         | some tags => asDiagnosticTags (some tags)
         | none => none) := rfl
  refine ⟨?_, ?_, rfl, rfl, ?_⟩
  · rw [htags, h]
    simp [asDiagnosticTags]
  · intro hempty
    rw [htags, h]
    simp [asDiagnosticTags, hempty]
  · intro t h1 h2
    simp [codeDiagnosticTagUnnecessary] at h1
    simp [codeDiagnosticTagDeprecated] at h2
    simp [asDiagnosticTag, codeDiagnosticTagUnnecessary, codeDiagnosticTagDeprecated, h1, h2]

/-- Witness for C5: tags [Unnecessary, 5] keep exactly [1]; tags [5] filter
to empty and the field is omitted (none), not an empty list. -/
theorem asDiagnostic_tags_allowlist_witness :
    (asDiagnostic nullConverter
        { range := { start := { line := 0, character := 0 }
                     «end» := { line := 0, character := 0 } }
          message := "m", tags := some [1, 5] }).tags = some [1]
    ∧ (asDiagnostic nullConverter
        { range := { start := { line := 0, character := 0 }
                     «end» := { line := 0, character := 0 } }
          message := "m", tags := some [5] }).tags = none :=
  ⟨(asDiagnostic_tags_allowlist nullConverter
      { range := { start := { line := 0, character := 0 }
                   «end» := { line := 0, character := 0 } }
        message := "m", tags := some [1, 5] } [1, 5] rfl).1,
   (asDiagnostic_tags_allowlist nullConverter
      { range := { start := { line := 0, character := 0 }
                   «end» := { line := 0, character := 0 } }
        message := "m", tags := some [5] } [5] rfl).2.1 rfl⟩

/-- Counterexample for C10: `asCommand` assigns the host's arguments array
itself to the wire command (`result.arguments = item.arguments`), so the
output carries the input array's identity tag 0 — a reference to the host
object's array, not a copy. -/
theorem asCommand_arguments_aliased_cex :
    (asCommand
        { title := "t", command := "c",
          arguments := some { ident := 0, data := [1, 2] } }).arguments
      = some { ident := 0, data := [1, 2] } :=
  rfl

/-- C10 (amended): commit characters are copied (`slice()`: fresh identity,
same elements), but a command's arguments array is passed through by
reference (same identity tag), aliasing the host-model array — the blanket
no-aliasing rule does not hold for command arguments. -/
theorem converter_array_ownership (item : CodeCompletionItem) (chars : ArrayVal String)
    (cmd : CodeCommand) (args : ArrayVal Nat)
    (hchars : item.commitCharacters = some chars) (hargs : cmd.arguments = some args) :
    (asCompletionItem item).commitCharacters = some chars.slice
    ∧ chars.slice.ident ≠ chars.ident
    ∧ chars.slice.data = chars.data
    ∧ (asCommand cmd).arguments = some args := by
  have hcc : (asCompletionItem item).commitCharacters
      = (match item.commitCharacters with
         | some chars => some chars.slice
         | none => none) := rfl
  refine ⟨?_, ?_, rfl, ?_⟩
  · rw [hcc, hchars]
  · simp [ArrayVal.slice]
  · show (match cmd.arguments with
          | some args => some args
          | none => none) = some args
    rw [hargs]

/-- Witness for C10: a commit-characters array with tag 3 is emitted with
the fresh tag 4 and the same elements, while a command's arguments array
with tag 0 is emitted with tag 0 (aliased). -/
theorem converter_array_ownership_witness :
    (asCompletionItem
        { label := "a",
          commitCharacters := some { ident := 3, data := ["."] } }).commitCharacters
      = some { ident := 4, data := ["."] }
    ∧ (4 : Nat) ≠ 3
    ∧ (["."] : List String) = ["."]
    ∧ (asCommand
        { title := "t", command := "c",
          arguments := some { ident := 0, data := [1, 2] } }).arguments
      = some { ident := 0, data := [1, 2] } :=
  converter_array_ownership
    { label := "a", commitCharacters := some { ident := 3, data := ["."] } }
    { ident := 3, data := ["."] }
    { title := "t", command := "c", arguments := some { ident := 0, data := [1, 2] } }
    { ident := 0, data := [1, 2] } rfl rfl
